import Mathlib

/-!
Shallow embedding of the `wsserver` package (Go) and its `debugger` overlay.

Connections are identified abstractly by natural numbers (a `net.Conn`
pointer is only ever compared for identity in the source); identities are
the source's `uint`, modelled by `Nat`; message bodies are byte lists.
Each definition below embeds one function (or one code path) of the Go
source; the line numbers in the doc comments refer to the source files.
-/

namespace WsServer

/-- A connection instance (`net.Conn` in the source); only identity
comparison and close are ever used, so an abstract token suffices. -/
abbrev Conn := Nat

/-- The registry field `WS.conns : map[uint]net.Conn`, a finite map from
identity to the currently live connection. -/
abbrev Registry := Nat → Option Conn

/-- Result of the upsert step of `WS.handle` (the block guarded by
`w.mutex.Lock()` right after a successful upgrade): the updated map and
the prior connection that was closed, when one was. -/
structure UpsertResult where
  conns : Registry
  closedPrior : Option Conn
deriving Inhabited

/-- `WS.handle`: after `u.Upgrade(conn)` succeeds, the code locks the
registry; if an entry already exists for `id` and is a different
connection instance, it closes that prior connection (logging any close
error), then installs `w.conns[id] = conn`. -/
def upsert (conns : Registry) (id : Nat) (conn : Conn) : UpsertResult :=
  match conns id with
  | some existConn =>
      if existConn ≠ conn then
        { conns := fun k => if k = id then some conn else conns k
          closedPrior := some existConn }
      else
        { conns := fun k => if k = id then some conn else conns k
          closedPrior := none }
  | none =>
      { conns := fun k => if k = id then some conn else conns k
        closedPrior := none }

/-- Result of the termination step of `WS.handle` (after `ReadLoop`
exits): the updated map, whether the entry was deleted, and whether
`OnOffline` was dispatched. -/
structure TerminateResult where
  conns : Registry
  removed : Bool
  offlineDispatched : Bool
deriving Inhabited

/-- `WS.handle` termination path: `if w.conns[id] == conn` the entry is
deleted and, after `wg.Wait()`, `OnOffline(id)` is dispatched; otherwise
(a reconnect already replaced the entry) nothing is removed and no
`OnOffline` is dispatched. -/
def terminate (conns : Registry) (id : Nat) (conn : Conn) : TerminateResult :=
  if conns id = some conn then
    { conns := fun k => if k = id then none else conns k
      removed := true
      offlineDispatched := true }
  else
    { conns := conns, removed := false, offlineDispatched := false }

/-- State of the Online completion barrier for one connection instance:
`onlineDone` is true once `onOnlineWrapper` has returned (its deferred
`wg.Done()` has run), `offlineDispatched` once the termination path has
dispatched `OnOffline`. -/
structure BarrierState where
  onlineDone : Bool
  offlineDispatched : Bool
deriving DecidableEq, Inhabited

/-- The two concurrent transitions relevant to the barrier in
`WS.handle`: the `go w.onOnlineWrapper(id, wg)` goroutine finishing
(which runs `wg.Done()`), and the termination path dispatching
`OnOffline` — the latter can only fire once `wg.Wait()` has returned,
i.e. from a state where `onlineDone` already holds. -/
inductive BarrierStep : BarrierState → BarrierState → Prop
  | finishOnline (d : Bool) : BarrierStep ⟨false, d⟩ ⟨true, d⟩
  | dispatchOffline : BarrierStep ⟨true, false⟩ ⟨true, true⟩

/-- The state right after `wg.Add(1); go w.onOnlineWrapper(id, wg)`:
the online dispatch is in flight, nothing has completed. -/
def barrierInit : BarrierState := ⟨false, false⟩

/-- Frame opcodes as `WS.handle`'s read loop distinguishes them. -/
inductive OpCode | ping | pong | text | close | other
deriving DecidableEq, Inhabited

/-- One event of the `select` in `WS.handle`'s read loop: a message
delivered on `chMsg` (successfully read frame, or a read error), or the
heartbeat timer firing. -/
inductive LoopEvent
  | msg (op : OpCode)
  | msgErr
  | timeout
deriving DecidableEq, Inhabited

/-- Observable actions of one iteration of the read loop. -/
inductive LoopAction
  | dispatchText
  | logUnknown
  | logReadErr
  | sendPing
  | logPingTimeout
  | sendCloseFrame (payload : List Nat)
deriving DecidableEq, Inhabited

/-- `TimeoutPing = 30 * time.Second`, in seconds. -/
def timeoutPing : Nat := 30

/-- `TimeoutClose = 15 * time.Second`, in seconds. -/
def timeoutClose : Nat := 15

/-- Heartbeat state of the read loop: the `afterPing` flag and the
interval (in seconds) the timer `to` is currently armed with. -/
structure LoopState where
  afterPing : Bool
  timerSecs : Nat
deriving DecidableEq, Inhabited

/-- One iteration of `ReadLoop` in `WS.handle` (lines 181–216): given the
current heartbeat state and the event the `select` picked, produce the
new state, the actions taken, and whether the loop continues (`false`
embeds `break ReadLoop`).
* a message with `msg.Err == nil`: `OpPing`/`OpPong` do nothing,
  `OpText` dispatches `OnText` asynchronously, `OpClose` breaks the loop
  (skipping the flag reset), any other opcode is logged; except for
  `OpClose`, `afterPing` is cleared and the timer re-armed to 30s;
* a message with `msg.Err != nil`: log and break;
* the timer firing with `afterPing` unset: send a ping, set `afterPing`,
  re-arm to 15s; firing with `afterPing` set: log, send a close frame
  with payload `{0x03, 0xEA}`, break. -/
def loopStep (s : LoopState) (e : LoopEvent) : LoopState × List LoopAction × Bool :=
  match e with
  | .msg op =>
    match op with
    | .close => (s, [], false)
    | .text => ({ afterPing := false, timerSecs := timeoutPing }, [.dispatchText], true)
    | .ping => ({ afterPing := false, timerSecs := timeoutPing }, [], true)
    | .pong => ({ afterPing := false, timerSecs := timeoutPing }, [], true)
    | .other => ({ afterPing := false, timerSecs := timeoutPing }, [.logUnknown], true)
  | .msgErr => (s, [.logReadErr], false)
  | .timeout =>
    if s.afterPing then
      (s, [.logPingTimeout, .sendCloseFrame [0x03, 0xEA]], false)
    else
      ({ afterPing := true, timerSecs := timeoutClose }, [.sendPing], true)

/-- Outcome of an application callback invocation as the dispatcher sees
it: a normal return, or a panic carrying its value. -/
inductive CbResult (α : Type)
  | ok (a : α)
  | panicked (msg : String)
deriving DecidableEq, Inhabited

/-- `WS.onAuthWrapper`: calls `h.OnAuth`; on panic the recover sets
`ok = false` and the named results keep their zero values, so the caller
sees `(0, false)`. -/
def onAuthWrapper (r : CbResult (Nat × Bool)) : Nat × Bool :=
  match r with
  | .ok p => p
  | .panicked _ => (0, false)

/-- `WS.onSendWrapper`: calls `h.OnSend`; on panic the recover sets
`ok = false`. -/
def onSendWrapper (r : CbResult Bool) : Bool :=
  match r with
  | .ok b => b
  | .panicked _ => false

/-- `WS.onOnlineWrapper` (and `onTextWrapper`, `onOfflineWrapper`): the
callback's panic is recovered and logged; the wrapper always returns
normally, so nothing propagates to the session loop. `true` records that
the invocation was contained (the wrapper returned). -/
def onOnlineWrapper (r : CbResult Unit) : Bool :=
  match r with
  | .ok _ => true
  | .panicked _ => true

/-- `WS.onTextWrapper`: same containment as `onOnlineWrapper`. -/
def onTextWrapper (r : CbResult Unit) : Bool :=
  match r with
  | .ok _ => true
  | .panicked _ => true

/-- `WS.onOfflineWrapper`: same containment as `onOnlineWrapper`. -/
def onOfflineWrapper (r : CbResult Unit) : Bool :=
  match r with
  | .ok _ => true
  | .panicked _ => true

/-- Errors of `WS.WriteMessage`: `ErrConnNotFound`, or a transport error
from `wsutil.WriteServerMessage` (carried abstractly as a string). -/
inductive WriteErr
  | connNotFound
  | transport (e : String)
deriving DecidableEq, Inhabited

/-- Observable effects of one `WS.WriteMessage` call, in order. -/
inductive WriteEffect
  | callOnSend (id : Nat) (msg : List Nat)
  | transmitText (msg : List Nat)
deriving DecidableEq, Inhabited

/-- Result of `WS.WriteMessage`: the ordered effect trace and the
returned error (`none` embeds a `nil` return). -/
structure WriteResult where
  effects : List WriteEffect
  result : Option WriteErr
deriving DecidableEq, Inhabited

/-- `WS.WriteMessage(id, msg)`: first `w.onSendWrapper(id, msg)`; only
if it allows does the code look `id` up in the registry (shared lock)
and transmit a text frame, returning the transport error if any
(`sendErr` is the outcome `wsutil.WriteServerMessage` would produce);
an unregistered `id` returns `ErrConnNotFound`; a veto returns `nil`
without transmitting. -/
def writeMessage (onSend : CbResult Bool) (conns : Registry)
    (sendErr : Option String) (id : Nat) (msg : List Nat) : WriteResult :=
  if onSendWrapper onSend then
    match conns id with
    | some _ =>
        { effects := [.callOnSend id msg, .transmitText msg]
          result := sendErr.map WriteErr.transport }
    | none =>
        { effects := [.callOnSend id msg]
          result := some .connNotFound }
  else
    { effects := [.callOnSend id msg], result := none }

/-- Handshake rejection errors of `WS.handle`'s `ws.Upgrader` callbacks:
`ErrAuthFailed`, `ErrBadAuthHeader`, `ErrNotAuth`. -/
inductive HsErr
  | authFailed
  | badAuthHeader
  | notAuth
deriving DecidableEq, Inhabited

/-- The handshake metadata the upgrader callbacks see, in arrival order:
the value of the `token` query parameter of the request target when
present (the `OnRequest` callback's `url.ParseQuery` lookup of
`AuthTokenKey`, abstracting URL syntax), then the request headers in
order (each fed to `OnHeader`). -/
structure Request where
  tokenQuery : Option String
  headers : List (String × String)

/-- `strings.HasPrefix(v, p)`, on the character lists of the two
strings. -/
def goHasPrefix (v p : String) : Bool := p.data.isPrefixOf v.data

/-- Everything after the first occurrence of a space. -/
def afterFirstSpace : List Char → List Char
  | [] => []
  | c :: rest => if c = ' ' then rest else afterFirstSpace rest

/-- `strings.SplitN(v, " ", 2)[1]`: everything after the first space of
`v` (the source only evaluates this under a `Bearer ` / `Basic ` prefix
guard, so a space exists). -/
def credOf (v : String) : String := ⟨afterFirstSpace v.data⟩

/-- The `OnRequest` callback: when a `token` query parameter is present,
`onAuthWrapper` resolves it; `ok == false` rejects with `ErrAuthFailed`,
otherwise the resolved id (possibly still 0) is kept. Returns the
resolved id or the rejection, with the list of credentials passed to the
application's `OnAuth`. -/
def onRequestStep (onAuth : String → Nat × Bool) (tokenQuery : Option String) :
    Except HsErr Nat × List String :=
  match tokenQuery with
  | none => (.ok 0, [])
  | some t =>
    match onAuth t with
    | (i, true) => (.ok i, [t])
    | (_, false) => (.error .authFailed, [t])

/-- The `OnHeader` callback folded over the headers in arrival order: a
header other than `Authorization`, or any header once `id ≠ 0`, is
ignored; an `Authorization` header with scheme `Bearer ` or `Basic `
passes the remainder of its value verbatim to `OnAuth` (`ok == false`
rejects with `ErrAuthFailed`); any other `Authorization` scheme rejects
with `ErrBadAuthHeader` without calling the application. -/
def onHeaderSteps (onAuth : String → Nat × Bool) :
    Nat → List (String × String) → Except HsErr Nat × List String
  | id, [] => (.ok id, [])
  | id, (k, v) :: rest =>
    if id = 0 ∧ k = "Authorization" then
      if goHasPrefix v "Bearer " ∨ goHasPrefix v "Basic " then
        match onAuth (credOf v) with
        | (i, true) =>
          match onHeaderSteps onAuth i rest with
          | (r, cs) => (r, credOf v :: cs)
        | (_, false) => (.error .authFailed, [credOf v])
      else (.error .badAuthHeader, [])
    else onHeaderSteps onAuth id rest

/-- The credential-resolving stages of the upgrade, before the final
checkpoint: `OnRequest`, then `OnHeader` over every header. -/
def resolve (onAuth : String → Nat × Bool) (req : Request) :
    Except HsErr Nat × List String :=
  match onRequestStep onAuth req.tokenQuery with
  | (.error e, cs) => (.error e, cs)
  | (.ok id, cs) =>
    match onHeaderSteps onAuth id req.headers with
    | (r, cs') => (r, cs ++ cs')

/-- The whole handshake: the resolving stages, then the final
pre-completion checkpoint `OnBeforeUpgrade`, which rejects with
`ErrNotAuth` whenever `id == 0` (an identity is a non-zero `uint`, so
id 0 means none was resolved). -/
def handshake (onAuth : String → Nat × Bool) (req : Request) :
    Except HsErr Nat × List String :=
  match resolve onAuth req with
  | (.ok id, cs) => (if id = 0 then .error .notAuth else .ok id, cs)
  | (.error e, cs) => (.error e, cs)

end WsServer

namespace Debugger

/-- The overlay's shared pairing state: `Debugger.debuggers` (identities
attached on the observer side) and `extHandlers.devices` (identities
attached on the principal side), both Go `map[uint]bool` used as sets. -/
structure OvState where
  debuggers : Nat → Bool
  devices : Nat → Bool

/-- Point update of a set. -/
def setAt (f : Nat → Bool) (id : Nat) (b : Bool) : Nat → Bool :=
  fun k => if k = id then b else f k

/-- The state after `debugger.New`: both sets empty. -/
def initState : OvState := ⟨fun _ => false, fun _ => false⟩

/-- A lifecycle event delivered to the wrapped application handler
(`appHandlers.OnOnline` / `appHandlers.OnOffline`). -/
inductive AppEv
  | online (id : Nat)
  | offline (id : Nat)
deriving DecidableEq, Inhabited

/-- `Debugger.OnOnline(id)` (observer side): if `id` is not yet in
`debuggers` it is added, and the application `OnOnline` fires only when
`id` is also absent from `devices`; otherwise nothing happens. -/
def debOnOnline (s : OvState) (id : Nat) : OvState × List AppEv :=
  if s.debuggers id then (s, [])
  else
    ({ s with debuggers := setAt s.debuggers id true },
     if s.devices id then [] else [.online id])

/-- `Debugger.OnOffline(id)` (observer side): if `id` is in `debuggers`
it is removed, and the application `OnOffline` fires only when `id` is
absent from `devices`; otherwise nothing happens. -/
def debOnOffline (s : OvState) (id : Nat) : OvState × List AppEv :=
  if s.debuggers id then
    ({ s with debuggers := setAt s.debuggers id false },
     if s.devices id then [] else [.offline id])
  else (s, [])

/-- `extHandlers.OnOnline(id)` (principal side): symmetric to
`debOnOnline` with the two sets swapped. -/
def extOnOnline (s : OvState) (id : Nat) : OvState × List AppEv :=
  if s.devices id then (s, [])
  else
    ({ s with devices := setAt s.devices id true },
     if s.debuggers id then [] else [.online id])

/-- `extHandlers.OnOffline(id)` (principal side): symmetric to
`debOnOffline` with the two sets swapped. -/
def extOnOffline (s : OvState) (id : Nat) : OvState × List AppEv :=
  if s.devices id then
    ({ s with devices := setAt s.devices id false },
     if s.debuggers id then [] else [.offline id])
  else (s, [])

/-- An attach/detach event on one side of the overlay, as the two
session managers deliver them. -/
inductive OvOp
  | obsOnline (id : Nat)
  | obsOffline (id : Nat)
  | prinOnline (id : Nat)
  | prinOffline (id : Nat)
deriving DecidableEq, Inhabited

/-- Dispatch one attach/detach event to the decorator that handles it. -/
def applyOp (s : OvState) : OvOp → OvState × List AppEv
  | .obsOnline id => debOnOnline s id
  | .obsOffline id => debOnOffline s id
  | .prinOnline id => extOnOnline s id
  | .prinOffline id => extOnOffline s id

/-- Run a sequence of attach/detach events, collecting the lifecycle
events the wrapped application handler observes, in order. -/
def runOps (s : OvState) : List OvOp → OvState × List AppEv
  | [] => (s, [])
  | op :: rest =>
    match applyOp s op with
    | (s1, e1) =>
      match runOps s1 rest with
      | (s2, e2) => (s2, e1 ++ e2)

/-- Whether some side of the overlay currently has `id` attached. -/
def netOnline (s : OvState) (id : Nat) : Bool :=
  s.debuggers id || s.devices id

/-- Legality checker for the application-visible lifecycle trace of one
identity: `follow id b evs = some b'` means that, among the events of
`evs` concerning `id`, online and offline strictly alternate starting
from online-status `b` and ending in status `b'`; `none` means the
application saw a second `OnOnline` within one attachment episode or an
`OnOffline` with no episode open. -/
def follow (id : Nat) : Bool → List AppEv → Option Bool
  | b, [] => some b
  | b, .online j :: rest =>
    if j = id then (if b then none else follow id true rest)
    else follow id b rest
  | b, .offline j :: rest =>
    if j = id then (if b then follow id false rest else none)
    else follow id b rest

/-- Effects of one text-message delivery through the overlay:
best-effort asynchronous forwards to each side's connection, and the
delivery to the wrapped application `OnText`. -/
structure TextOutcome where
  forwardObserver : Bool
  forwardPrincipal : Bool
  appDelivery : Option (Nat × List Nat)
deriving DecidableEq, Inhabited

/-- `extHandlers.OnText(id, msg)` — a text received from a principal:
forwarded (fire-and-forget `go e.d.cc.WriteMessage`) to the paired
observer connection when one is attached, and always delivered to the
application `OnText` with the same identity and payload. -/
def extOnText (s : OvState) (id : Nat) (msg : List Nat) : TextOutcome :=
  { forwardObserver := s.debuggers id
    forwardPrincipal := false
    appDelivery := some (id, msg) }

/-- `Debugger.OnText(id, msg)` — a text received from an observer:
forwarded (fire-and-forget) to the paired principal connection when one
is attached (`d.ws.devices[id]`), echoed to the observer connection
itself when attached (`d.debuggers[id]`, via `d.cc`), and always
delivered to the application `OnText` with the same identity and
payload — i.e. as if it had originated from the principal. -/
def debOnText (s : OvState) (id : Nat) (msg : List Nat) : TextOutcome :=
  { forwardObserver := s.debuggers id
    forwardPrincipal := s.devices id
    appDelivery := some (id, msg) }

end Debugger

/-- The test suite's `THandlers.OnAuth`: every credential resolves to
identity 1 (used to evaluate the handshake on concrete requests). -/
def WsServer.tHandlersOnAuth : String → Nat × Bool := fun _ => (1, true)

namespace WsServer

/-- A sample registry holding connection 5 for identity 1. -/
def sampleRegistry : Registry := fun i => if i = 1 then some 5 else none

end WsServer

/-- C1: at most one live connection is mapped to a given identity —
`Upsert(id, conn)` with an existing entry for `id` holding a different
connection instance closes that prior connection (its close error is
logged, not propagated) before installing the new mapping, and after the
upsert the only connection the registry maps `id` to is `conn`. -/
theorem upsert_evicts_prior (conns : WsServer.Registry) (id : Nat)
    (conn old : WsServer.Conn) (h : conns id = some old) (hne : old ≠ conn) :
    (WsServer.upsert conns id conn).conns id = some conn ∧
    (WsServer.upsert conns id conn).closedPrior = some old ∧
    ∀ c, (WsServer.upsert conns id conn).conns id = some c → c = conn := by
  unfold WsServer.upsert
  rw [h]
  simp [hne]

/-- Witness for C1: identity 1 maps to connection 5; upserting
connection 6 installs it and closes connection 5. -/
theorem upsert_evicts_prior_witness :
    (WsServer.upsert WsServer.sampleRegistry 1 6).conns 1 = some 6 ∧
    (WsServer.upsert WsServer.sampleRegistry 1 6).closedPrior = some 5 :=
  ⟨(upsert_evicts_prior WsServer.sampleRegistry 1 6 5 rfl (by decide)).1,
   (upsert_evicts_prior WsServer.sampleRegistry 1 6 5 rfl (by decide)).2.1⟩

/-- C2: a terminating connection removes its registry entry only when the
registry still maps the identity to that same instance. In the reconnect
scenario — `b` upserted over `a` — the superseded instance `a` deletes
nothing and dispatches no `OnOffline`; the surviving instance `b`
dispatches `OnOffline` on its own termination. The last conjunct states
the general guard: a mismatched `terminate` is a no-op. -/
theorem terminate_only_matching (conns : WsServer.Registry) (id : Nat)
    (a b : WsServer.Conn) (hne : a ≠ b) :
    ((WsServer.terminate (WsServer.upsert conns id b).conns id a).removed = false ∧
     (WsServer.terminate (WsServer.upsert conns id b).conns id a).offlineDispatched = false ∧
     (WsServer.terminate (WsServer.upsert conns id b).conns id a).conns =
       (WsServer.upsert conns id b).conns) ∧
    ((WsServer.terminate (WsServer.upsert conns id b).conns id b).removed = true ∧
     (WsServer.terminate (WsServer.upsert conns id b).conns id b).offlineDispatched = true ∧
     (WsServer.terminate (WsServer.upsert conns id b).conns id b).conns id = none) ∧
    ∀ cs : WsServer.Registry, ∀ c, cs id ≠ some c →
      WsServer.terminate cs id c = ⟨cs, false, false⟩ := by
  have hb : (WsServer.upsert conns id b).conns id = some b := by
    unfold WsServer.upsert
    cases h : conns id with
    | none => simp
    | some e => by_cases he : e = b <;> simp [he]
  refine ⟨?_, ?_, ?_⟩
  · have : ¬((WsServer.upsert conns id b).conns id = some a) := by
      rw [hb]; simp [hne.symm]
    simp [WsServer.terminate, this]
  · simp [WsServer.terminate, hb]
  · intro cs c hcs
    simp [WsServer.terminate, hcs]

/-- Witness for C2: connection 5 for identity 1 is superseded by
connection 6; terminating 5 changes nothing, terminating 6 removes the
entry and dispatches `OnOffline`. -/
theorem terminate_only_matching_witness :
    (WsServer.terminate (WsServer.upsert WsServer.sampleRegistry 1 6).conns 1 5).offlineDispatched = false ∧
    (WsServer.terminate (WsServer.upsert WsServer.sampleRegistry 1 6).conns 1 6).offlineDispatched = true :=
  ⟨(terminate_only_matching WsServer.sampleRegistry 1 5 6 (by decide)).1.2.1,
   (terminate_only_matching WsServer.sampleRegistry 1 5 6 (by decide)).2.1.2.1⟩

/-- C3: in every interleaving of the `go onOnlineWrapper` goroutine with
the session loop's termination path (modelled by `BarrierStep`,
reachable from `barrierInit`), whenever `OnOffline` has been dispatched,
the `OnOnline` dispatch has already completed — the termination path's
`wg.Wait()` guards the `dispatchOffline` transition. -/
theorem offline_implies_online_done (s : WsServer.BarrierState)
    (h : Relation.ReflTransGen WsServer.BarrierStep WsServer.barrierInit s)
    (hoff : s.offlineDispatched = true) : s.onlineDone = true := by
  induction h with
  | refl => simp [WsServer.barrierInit] at hoff
  | tail hprev step ih =>
    cases step with
    | finishOnline d => rfl
    | dispatchOffline => rfl

/-- Witness for C3: the state with both flags set is reachable (online
completes, then offline dispatches), and the theorem applies to it. -/
theorem offline_implies_online_done_witness :
    WsServer.BarrierState.onlineDone ⟨true, true⟩ = true :=
  offline_implies_online_done ⟨true, true⟩
    (Relation.ReflTransGen.tail
      (Relation.ReflTransGen.single (WsServer.BarrierStep.finishOnline false))
      WsServer.BarrierStep.dispatchOffline)
    rfl

/-- C4 counterexample: the claim says any successfully received frame of
any opcode clears the awaiting-pong flag and re-arms the 30s activity
interval; but a close frame received while awaiting a pong breaks out of
the loop, leaving the flag set and the timer interval untouched. -/
theorem heartbeat_close_frame_counterexample :
    ¬ ((WsServer.loopStep ⟨true, WsServer.timeoutClose⟩
          (WsServer.LoopEvent.msg WsServer.OpCode.close)).1.afterPing = false ∧
       (WsServer.loopStep ⟨true, WsServer.timeoutClose⟩
          (WsServer.LoopEvent.msg WsServer.OpCode.close)).1.timerSecs =
         WsServer.timeoutPing) := by
  decide

/-- C4 (amended): a timer fire with no ping outstanding sends a ping,
sets the awaiting-pong flag and re-arms the 15s grace interval; a timer
fire while awaiting-pong sends a close control frame with the literal
payload bytes `0x03 0xEA` and terminates the loop; any successfully
received frame of an opcode other than close clears the awaiting-pong
flag and re-arms the 30s activity interval; a received close frame
terminates the loop without touching the flag or the timer. -/
theorem heartbeat_state_machine (s : WsServer.LoopState) :
    (s.afterPing = false →
      WsServer.loopStep s WsServer.LoopEvent.timeout =
        (⟨true, WsServer.timeoutClose⟩, [WsServer.LoopAction.sendPing], true)) ∧
    (s.afterPing = true →
      WsServer.loopStep s WsServer.LoopEvent.timeout =
        (s, [WsServer.LoopAction.logPingTimeout,
             WsServer.LoopAction.sendCloseFrame [0x03, 0xEA]], false)) ∧
    (∀ op, op ≠ WsServer.OpCode.close →
      (WsServer.loopStep s (WsServer.LoopEvent.msg op)).1 =
        ⟨false, WsServer.timeoutPing⟩ ∧
      (WsServer.loopStep s (WsServer.LoopEvent.msg op)).2.2 = true) ∧
    ((WsServer.loopStep s (WsServer.LoopEvent.msg WsServer.OpCode.close)).2.2 = false ∧
     (WsServer.loopStep s (WsServer.LoopEvent.msg WsServer.OpCode.close)).1 = s) := by
  refine ⟨?_, ?_, ?_, ?_, ?_⟩
  · intro h; simp [WsServer.loopStep, h]
  · intro h; simp [WsServer.loopStep, h]
  · intro op hop
    cases op <;> simp_all [WsServer.loopStep]
  · rfl
  · rfl

/-- Witness for C4 (amended), at concrete states: an idle timeout pings
and arms 15s; an awaiting-pong timeout closes with payload `[3, 234]`;
a text frame while awaiting-pong clears the flag and re-arms 30s. -/
theorem heartbeat_state_machine_witness :
    WsServer.loopStep ⟨false, 30⟩ WsServer.LoopEvent.timeout =
      (⟨true, 15⟩, [WsServer.LoopAction.sendPing], true) ∧
    WsServer.loopStep ⟨true, 15⟩ WsServer.LoopEvent.timeout =
      (⟨true, 15⟩, [WsServer.LoopAction.logPingTimeout,
                    WsServer.LoopAction.sendCloseFrame [3, 234]], false) ∧
    (WsServer.loopStep ⟨true, 15⟩
      (WsServer.LoopEvent.msg WsServer.OpCode.text)).1 = ⟨false, 30⟩ :=
  ⟨(heartbeat_state_machine ⟨false, 30⟩).1 rfl,
   (heartbeat_state_machine ⟨true, 15⟩).2.1 rfl,
   ((heartbeat_state_machine ⟨true, 15⟩).2.2.1 WsServer.OpCode.text (by decide)).1⟩

/-- C5: `WriteMessage(id, msg)` invokes `OnSend(id, msg)` exactly once
and first; a veto (`OnSend` false) returns `nil` without transmitting;
with `OnSend` true and `id` unregistered it returns `ErrConnNotFound`;
with `OnSend` true and `id` registered it transmits a text frame and
returns the transport error, if any. -/
theorem writeMessage_spec (onSend : WsServer.CbResult Bool)
    (conns : WsServer.Registry) (sendErr : Option String)
    (id : Nat) (msg : List Nat) :
    ((WsServer.writeMessage onSend conns sendErr id msg).effects.head? =
       some (WsServer.WriteEffect.callOnSend id msg)) ∧
    ((WsServer.writeMessage onSend conns sendErr id msg).effects.count
       (WsServer.WriteEffect.callOnSend id msg) = 1) ∧
    (WsServer.onSendWrapper onSend = false →
      WsServer.writeMessage onSend conns sendErr id msg =
        { effects := [WsServer.WriteEffect.callOnSend id msg], result := none }) ∧
    (WsServer.onSendWrapper onSend = true → conns id = none →
      (WsServer.writeMessage onSend conns sendErr id msg).result =
        some WsServer.WriteErr.connNotFound) ∧
    (∀ c, WsServer.onSendWrapper onSend = true → conns id = some c →
      (WsServer.writeMessage onSend conns sendErr id msg).effects =
        [WsServer.WriteEffect.callOnSend id msg,
         WsServer.WriteEffect.transmitText msg] ∧
      (WsServer.writeMessage onSend conns sendErr id msg).result =
        sendErr.map WsServer.WriteErr.transport) := by
  cases hos : WsServer.onSendWrapper onSend with
  | false =>
    refine ⟨?_, ?_, ?_, ?_, ?_⟩ <;>
      simp [WsServer.writeMessage, hos]
  | true =>
    cases hc : conns id with
    | none =>
      refine ⟨?_, ?_, ?_, ?_, ?_⟩ <;>
        simp [WsServer.writeMessage, hos, hc]
    | some c =>
      refine ⟨?_, ?_, ?_, ?_, ?_⟩ <;>
        simp [WsServer.writeMessage, hos, hc]

/-- Witness for C5: the test scenario — `OnSend` allows, identity 2 is
unregistered in a registry holding only identity 1 — yields the
"connection not found" error after one `OnSend` call; a veto returns
`nil`; a registered identity transmits. -/
theorem writeMessage_spec_witness :
    (WsServer.writeMessage (WsServer.CbResult.ok true) WsServer.sampleRegistry
       none 2 [104, 105]).result = some WsServer.WriteErr.connNotFound ∧
    WsServer.writeMessage (WsServer.CbResult.ok false) WsServer.sampleRegistry
       none 2 [104, 105] =
      { effects := [WsServer.WriteEffect.callOnSend 2 [104, 105]], result := none } ∧
    (WsServer.writeMessage (WsServer.CbResult.ok true) WsServer.sampleRegistry
       none 1 [104, 105]).effects =
      [WsServer.WriteEffect.callOnSend 1 [104, 105],
       WsServer.WriteEffect.transmitText [104, 105]] :=
  ⟨(writeMessage_spec (WsServer.CbResult.ok true) WsServer.sampleRegistry
      none 2 [104, 105]).2.2.2.1 rfl (by decide),
   (writeMessage_spec (WsServer.CbResult.ok false) WsServer.sampleRegistry
      none 2 [104, 105]).2.2.1 rfl,
   ((writeMessage_spec (WsServer.CbResult.ok true) WsServer.sampleRegistry
      none 1 [104, 105]).2.2.2.2 5 rfl (by decide)).1⟩

/-- Helper: once an identity other than 0 is resolved, the `OnHeader`
callback ignores every remaining header (its guard requires `id == 0`). -/
theorem onHeaderSteps_skip (onAuth : String → Nat × Bool) (id : Nat)
    (hid : id ≠ 0) :
    ∀ hdrs, WsServer.onHeaderSteps onAuth id hdrs = (.ok id, []) := by
  intro hdrs
  induction hdrs with
  | nil => rfl
  | cons kv rest ih =>
    cases kv with
    | mk k v => simp [WsServer.onHeaderSteps, hid, ih]

/-- C6: whenever the resolving stages (`OnRequest`, then `OnHeader` over
every header) complete without rejection but leave the identity at 0 —
including when the application's only `OnAuth` result was `(0, true)`,
since an identity is a non-zero unsigned integer — the final checkpoint
`OnBeforeUpgrade` rejects the upgrade with the "not authenticated"
error; and a request carrying no credential at all passes the earlier
stages (second conjunct), so it fails only at this checkpoint. -/
theorem no_identity_rejected_at_checkpoint (onAuth : String → Nat × Bool)
    (req : WsServer.Request)
    (h : (WsServer.resolve onAuth req).1 = .ok 0) :
    (WsServer.handshake onAuth req).1 = .error WsServer.HsErr.notAuth ∧
    (WsServer.resolve onAuth { tokenQuery := none, headers := [] }).1 = .ok 0 := by
  refine ⟨?_, rfl⟩
  unfold WsServer.handshake
  rcases hr : WsServer.resolve onAuth req with ⟨r, cs⟩
  rw [hr] at h
  simp at h
  subst h
  simp

/-- Witness for C6: an authenticator answering `(0, true)` to every
credential leaves a token-carrying handshake unauthenticated; the
checkpoint rejects it. -/
theorem no_identity_rejected_at_checkpoint_witness :
    (WsServer.handshake (fun _ => (0, true))
      { tokenQuery := some "123456", headers := [] }).1 =
      .error WsServer.HsErr.notAuth ∧
    (WsServer.resolve (fun _ => (0, true))
      { tokenQuery := none, headers := [] }).1 = .ok 0 :=
  no_identity_rejected_at_checkpoint (fun _ => (0, true))
    { tokenQuery := some "123456", headers := [] } rfl

/-- C7: credential sources are evaluated in arrival order with first
match winning — (1) a resolving `token` query parameter is used and
every header is then ignored; (2) with no query credential, an
`Authorization` header with scheme `Bearer ` or `Basic ` passes the
remainder of its value verbatim (`credOf`, the split at the first space,
no decoding) to the application, and later headers are ignored once the
identity is resolved; (3) an `Authorization` header with neither
recognized scheme (no identity yet resolved) rejects with the "bad auth
header" error and the application is never called. -/
theorem credential_sources_in_order (onAuth : String → Nat × Bool) :
    (∀ req t i, req.tokenQuery = some t → onAuth t = (i, true) → i ≠ 0 →
      WsServer.handshake onAuth req = (.ok i, [t])) ∧
    (∀ v rest i,
      (WsServer.goHasPrefix v "Bearer " = true ∨
       WsServer.goHasPrefix v "Basic " = true) →
      onAuth (WsServer.credOf v) = (i, true) → i ≠ 0 →
      WsServer.handshake onAuth
        { tokenQuery := none, headers := ("Authorization", v) :: rest } =
        (.ok i, [WsServer.credOf v])) ∧
    (∀ v rest,
      WsServer.goHasPrefix v "Bearer " = false →
      WsServer.goHasPrefix v "Basic " = false →
      WsServer.handshake onAuth
        { tokenQuery := none, headers := ("Authorization", v) :: rest } =
        (.error WsServer.HsErr.badAuthHeader, [])) := by
  refine ⟨?_, ?_, ?_⟩
  · intro req t i hq ha hi
    unfold WsServer.handshake WsServer.resolve WsServer.onRequestStep
    rw [hq]
    simp [ha, onHeaderSteps_skip onAuth i hi, hi]
  · intro v rest i hv ha hi
    unfold WsServer.handshake WsServer.resolve
    simp only [WsServer.onRequestStep, WsServer.onHeaderSteps]
    simp [hv, ha, onHeaderSteps_skip onAuth i hi, hi]
  · intro v rest hb hb2
    unfold WsServer.handshake WsServer.resolve WsServer.onRequestStep
    simp [WsServer.onHeaderSteps, hb, hb2]

/-- Witness for C7, with the test authenticator (every credential maps
to identity 1): a `token=123456` query wins even with an unusable
`Authorization` header behind it; `Authorization: Bearer 123456` yields
the verbatim credential `"123456"`; `Authorization: Token 123456` is
rejected as a bad auth header with no application call. -/
theorem credential_sources_in_order_witness :
    WsServer.handshake WsServer.tHandlersOnAuth
      { tokenQuery := some "123456",
        headers := [("Authorization", "Token zzz")] } = (.ok 1, ["123456"]) ∧
    WsServer.handshake WsServer.tHandlersOnAuth
      { tokenQuery := none,
        headers := [("Authorization", "Bearer 123456")] } = (.ok 1, ["123456"]) ∧
    WsServer.handshake WsServer.tHandlersOnAuth
      { tokenQuery := none,
        headers := [("Authorization", "Token 123456")] } =
      (.error WsServer.HsErr.badAuthHeader, []) :=
  ⟨(credential_sources_in_order WsServer.tHandlersOnAuth).1
      { tokenQuery := some "123456", headers := [("Authorization", "Token zzz")] }
      "123456" 1 rfl rfl (by decide),
   by
     have h := (credential_sources_in_order WsServer.tHandlersOnAuth).2.1
       "Bearer 123456" [] 1 (Or.inl (by decide)) rfl (by decide)
     have hc : WsServer.credOf "Bearer 123456" = "123456" := by decide
     rw [hc] at h
     exact h,
   (credential_sources_in_order WsServer.tHandlersOnAuth).2.2
      "Token 123456" [] (by decide) (by decide)⟩

/-- C10: every callback wrapper catches an application panic and
substitutes the safe default — `(0, false)` for `OnAuth`, `false` for
`OnSend`, a plain no-op return for `OnOnline`/`OnText`/`OnOffline`
(the wrappers are total functions, so no fault reaches the session loop
or registry); consequently an `OnAuth` panic during a token handshake
yields `ok == false` and the upgrade is rejected, and an `OnSend` panic
makes `WriteMessage` return `nil` without transmitting. -/
theorem callback_fault_isolation :
    (∀ m, WsServer.onAuthWrapper (.panicked m) = (0, false)) ∧
    (∀ m, WsServer.onSendWrapper (.panicked m) = false) ∧
    (∀ m, WsServer.onOnlineWrapper (.panicked m) = true ∧
          WsServer.onTextWrapper (.panicked m) = true ∧
          WsServer.onOfflineWrapper (.panicked m) = true) ∧
    (∀ (appOnAuth : String → WsServer.CbResult (Nat × Bool))
       (req : WsServer.Request) (t : String) (m : String),
      req.tokenQuery = some t → appOnAuth t = .panicked m →
      (WsServer.handshake (fun c => WsServer.onAuthWrapper (appOnAuth c)) req).1 =
        .error WsServer.HsErr.authFailed) ∧
    (∀ (m : String) (conns : WsServer.Registry) (sendErr : Option String)
       (id : Nat) (msg : List Nat),
      WsServer.writeMessage (.panicked m) conns sendErr id msg =
        { effects := [WsServer.WriteEffect.callOnSend id msg], result := none }) := by
  refine ⟨fun m => rfl, fun m => rfl, fun m => ⟨rfl, rfl, rfl⟩, ?_, ?_⟩
  · intro f req t m hq hp
    unfold WsServer.handshake WsServer.resolve WsServer.onRequestStep
    rw [hq]
    simp [hp, WsServer.onAuthWrapper]
  · intro m conns sendErr id msg
    simp [WsServer.writeMessage, WsServer.onSendWrapper]

/-- Witness for C10: a panicking `OnAuth` rejects the concrete token
handshake with the auth-failure error, and a panicking `OnSend` makes a
concrete `WriteMessage` call a vetoed no-op. -/
theorem callback_fault_isolation_witness :
    (WsServer.handshake
      (fun c => WsServer.onAuthWrapper
        ((fun _ => WsServer.CbResult.panicked "boom") c))
      { tokenQuery := some "123456", headers := [] }).1 =
      .error WsServer.HsErr.authFailed ∧
    WsServer.writeMessage (.panicked "boom") WsServer.sampleRegistry
      none 1 [104] =
      { effects := [WsServer.WriteEffect.callOnSend 1 [104]], result := none } :=
  ⟨callback_fault_isolation.2.2.2.1 (fun _ => WsServer.CbResult.panicked "boom")
    { tokenQuery := some "123456", headers := [] } "123456" "boom" rfl rfl,
   callback_fault_isolation.2.2.2.2 "boom" WsServer.sampleRegistry none 1 [104]⟩

/-- C9: through the overlay, a text from a principal
(`extHandlers.OnText`) is forwarded to the paired observer connection
exactly when one is attached and is always delivered to the application
`OnText` with the same identity and payload; a text from an observer
(`Debugger.OnText`) is forwarded to the paired principal connection
exactly when one is attached and is also always delivered to the
application `OnText` with the same identity and payload — i.e. as if it
had originated from the principal. Both forwards are the fire-and-forget
`go ...WriteMessage` calls, whose outcome nothing inspects. -/
theorem overlay_text_mirroring (s : Debugger.OvState) (id : Nat) (msg : List Nat) :
    (Debugger.extOnText s id msg).forwardObserver = s.debuggers id ∧
    (Debugger.extOnText s id msg).forwardPrincipal = false ∧
    (Debugger.extOnText s id msg).appDelivery = some (id, msg) ∧
    (Debugger.debOnText s id msg).forwardPrincipal = s.devices id ∧
    (Debugger.debOnText s id msg).appDelivery = some (id, msg) :=
  ⟨rfl, rfl, rfl, rfl, rfl⟩

/-- Helper: the trace-legality checker distributes over concatenation. -/
theorem follow_append (id : Nat) (b : Bool) (e1 e2 : List Debugger.AppEv) :
    Debugger.follow id b (e1 ++ e2) =
      (Debugger.follow id b e1).bind (fun c => Debugger.follow id c e2) := by
  induction e1 generalizing b with
  | nil => simp [Debugger.follow]
  | cons e rest ih =>
    cases e with
    | online j =>
      by_cases hj : j = id
      · cases b
        · simp [Debugger.follow, hj, ih]
        · simp [Debugger.follow, hj]
      · simp [Debugger.follow, hj, ih]
    | offline j =>
      by_cases hj : j = id
      · cases b
        · simp [Debugger.follow, hj]
        · simp [Debugger.follow, hj, ih]
      · simp [Debugger.follow, hj, ih]

/-- Helper: one attach/detach event keeps the application lifecycle
trace of any identity legal, and lands on the paired-attachment status
of the new state. -/
theorem applyOp_follow (s : Debugger.OvState) (op : Debugger.OvOp) (id : Nat) :
    Debugger.follow id (Debugger.netOnline s id) (Debugger.applyOp s op).2 =
      some (Debugger.netOnline (Debugger.applyOp s op).1 id) := by
  cases op with
  | obsOnline j =>
    by_cases hij : id = j
    · subst hij
      by_cases hdeb : s.debuggers id <;> by_cases hdev : s.devices id <;>
        simp [Debugger.applyOp, Debugger.debOnOnline, Debugger.netOnline,
          Debugger.setAt, Debugger.follow, hdeb, hdev]
    · by_cases hdeb : s.debuggers j <;> by_cases hdev : s.devices j <;>
        simp [Debugger.applyOp, Debugger.debOnOnline, Debugger.netOnline,
          Debugger.setAt, Debugger.follow, hdeb, hdev, hij, Ne.symm hij]
  | obsOffline j =>
    by_cases hij : id = j
    · subst hij
      by_cases hdeb : s.debuggers id <;> by_cases hdev : s.devices id <;>
        simp [Debugger.applyOp, Debugger.debOnOffline, Debugger.netOnline,
          Debugger.setAt, Debugger.follow, hdeb, hdev]
    · by_cases hdeb : s.debuggers j <;> by_cases hdev : s.devices j <;>
        simp [Debugger.applyOp, Debugger.debOnOffline, Debugger.netOnline,
          Debugger.setAt, Debugger.follow, hdeb, hdev, hij, Ne.symm hij]
  | prinOnline j =>
    by_cases hij : id = j
    · subst hij
      by_cases hdeb : s.debuggers id <;> by_cases hdev : s.devices id <;>
        simp [Debugger.applyOp, Debugger.extOnOnline, Debugger.netOnline,
          Debugger.setAt, Debugger.follow, hdeb, hdev]
    · by_cases hdeb : s.debuggers j <;> by_cases hdev : s.devices j <;>
        simp [Debugger.applyOp, Debugger.extOnOnline, Debugger.netOnline,
          Debugger.setAt, Debugger.follow, hdeb, hdev, hij, Ne.symm hij]
  | prinOffline j =>
    by_cases hij : id = j
    · subst hij
      by_cases hdeb : s.debuggers id <;> by_cases hdev : s.devices id <;>
        simp [Debugger.applyOp, Debugger.extOnOffline, Debugger.netOnline,
          Debugger.setAt, Debugger.follow, hdeb, hdev]
    · by_cases hdeb : s.debuggers j <;> by_cases hdev : s.devices j <;>
        simp [Debugger.applyOp, Debugger.extOnOffline, Debugger.netOnline,
          Debugger.setAt, Debugger.follow, hdeb, hdev, hij, Ne.symm hij]

/-- Helper: over any event sequence from any state, the application
lifecycle trace of any identity stays legal and tracks the
paired-attachment status. -/
theorem runOps_follow (id : Nat) :
    ∀ (ops : List Debugger.OvOp) (s : Debugger.OvState),
      Debugger.follow id (Debugger.netOnline s id) (Debugger.runOps s ops).2 =
        some (Debugger.netOnline (Debugger.runOps s ops).1 id) := by
  intro ops
  induction ops with
  | nil => intro s; simp [Debugger.runOps, Debugger.follow]
  | cons op rest ih =>
    intro s
    have ha := applyOp_follow s op id
    rcases h1 : Debugger.applyOp s op with ⟨s1, e1⟩
    rcases h2 : Debugger.runOps s1 rest with ⟨s2, e2⟩
    have hrun : Debugger.runOps s (op :: rest) = (s2, e1 ++ e2) := by
      simp [Debugger.runOps, h1, h2]
    rw [hrun, follow_append]
    rw [h1] at ha
    simp only at ha
    rw [ha]
    have hi := ih s1
    rw [h2] at hi
    simpa using hi

/-- C8: lifecycle suppression of the overlay — each side's `OnOnline`
reaches the wrapped application only when the identity was attached on
neither side, each side's `OnOffline` only when it detaches the last
side (first four conjuncts, closed forms of the four decorator
handlers); and over every interleaving of attach/detach events on both
sides, starting from the empty overlay, the application-visible trace of
any identity strictly alternates one `OnOnline` with one matching
`OnOffline` per attachment episode (the `follow` checker never reports a
duplicate) and ends online exactly when some side is still attached. -/
theorem overlay_lifecycle_suppression :
    (∀ s id, (Debugger.debOnOnline s id).2 =
      if s.debuggers id = false ∧ s.devices id = false
      then [Debugger.AppEv.online id] else []) ∧
    (∀ s id, (Debugger.debOnOffline s id).2 =
      if s.debuggers id = true ∧ s.devices id = false
      then [Debugger.AppEv.offline id] else []) ∧
    (∀ s id, (Debugger.extOnOnline s id).2 =
      if s.devices id = false ∧ s.debuggers id = false
      then [Debugger.AppEv.online id] else []) ∧
    (∀ s id, (Debugger.extOnOffline s id).2 =
      if s.devices id = true ∧ s.debuggers id = false
      then [Debugger.AppEv.offline id] else []) ∧
    (∀ (ops : List Debugger.OvOp) (id : Nat),
      Debugger.follow id false (Debugger.runOps Debugger.initState ops).2 =
        some (Debugger.netOnline (Debugger.runOps Debugger.initState ops).1 id)) := by
  refine ⟨?_, ?_, ?_, ?_, ?_⟩
  · intro s id
    by_cases hdeb : s.debuggers id <;> by_cases hdev : s.devices id <;>
      simp [Debugger.debOnOnline, hdeb, hdev]
  · intro s id
    by_cases hdeb : s.debuggers id <;> by_cases hdev : s.devices id <;>
      simp [Debugger.debOnOffline, hdeb, hdev]
  · intro s id
    by_cases hdeb : s.debuggers id <;> by_cases hdev : s.devices id <;>
      simp [Debugger.extOnOnline, hdeb, hdev]
  · intro s id
    by_cases hdeb : s.debuggers id <;> by_cases hdev : s.devices id <;>
      simp [Debugger.extOnOffline, hdeb, hdev]
  · intro ops id
    simpa [Debugger.netOnline, Debugger.initState]
      using runOps_follow id ops Debugger.initState
